import Mathlib

/-!
# Verification of the Compli BYOAI risk & policy compliance engine

Shallow embedding of the repository's risk-scoring engine, data-sensitivity
classifier, policy evaluator, violation lifecycle handlers and compliance
assessor, followed by theorems settling the frozen claims about them.

Numbers are embedded exactly: JavaScript integer-valued scores become `Nat`,
weighted sums become exact rationals, and `Math.round` (which rounds halves
toward positive infinity) becomes `jsRound`.  JavaScript truthiness on
optional values (where `0`, `""`, `null` and `undefined` are all falsy) is
embedded by `jsOrNat` / `jsOrStr` and by explicit `Option` matches.
-/

namespace Compli

/-- JavaScript rounding: `Math.round x` for nonnegative and negative rationals alike:
JavaScript rounds half-values toward positive infinity. -/
def jsRound (q : ℚ) : ℤ := ⌊q + 1/2⌋

/-- JavaScript `a || b` on an optionally-present number: `null`, `undefined`
and `0` all fall through to the default. -/
def jsOrNat (o : Option Nat) (d : Nat) : Nat :=
  match o with
  | some n => if n = 0 then d else n
  | none => d

/-- JavaScript `a || b` on an optionally-present string: `null`, `undefined`
and `""` all fall through to the default. -/
def jsOrStr (o : Option String) (d : String) : String :=
  match o with
  | some s => if s = "" then d else s
  | none => d

/-- JavaScript truthiness of an optionally-present string
(`s` is truthy iff present and nonempty). -/
def jsTruthyStr (o : Option String) : Bool :=
  match o with
  | some s => s != ""
  | none => false

/-! ## Risk calculation engine (risk library, `AITool` scoring) -/

/-- The `AITool` record of the risk library.  String-typed enumerations are embedded as
`String`/`Option String` because the values cross the database boundary. -/
structure AITool where
  tool_name : String
  tool_vendor : Option String
  tool_type : String
  deployment_type : Option String
  processes_personal_info : Bool
  processes_sensitive_info : Bool
  cross_border_disclosure : Bool
  data_residency : Option String
  privacy_act_compliant : Option Bool
  approval_status : Option String
  deriving DecidableEq

inductive RiskLevel where
  | low | medium | high | critical
  deriving DecidableEq

structure RiskFactor where
  category : String
  score : Nat
  weight : ℚ
  description : String
  deriving DecidableEq

structure RiskScore where
  overall_risk : ℤ
  risk_level : RiskLevel
  risk_factors : List RiskFactor
  recommendations : List String
  deriving DecidableEq

/-- Source `calculateDataSensitivityRisk`: `+40` personal, `+60` sensitive, capped at 100. -/
def calculateDataSensitivityRisk (tool : AITool) : Nat :=
  let score := (if tool.processes_personal_info then 40 else 0)
    + (if tool.processes_sensitive_info then 60 else 0)
  min score 100

/-- Source `calculateDeploymentRisk`: table lookup on `deployment_type || 'cloud'`,
with `|| 80` on the looked-up value (absent keys are the highest risk). -/
def calculateDeploymentRisk (tool : AITool) : Nat :=
  let key := jsOrStr tool.deployment_type "cloud"
  let looked : Option Nat :=
    if key = "on_premise" then some 10
    else if key = "hybrid" then some 50
    else if key = "cloud" then some 70
    else none
  jsOrNat looked 80

/-- Source `calculateCrossBorderRisk`: 0 without transfer, else base 60 plus 20 per
personal/sensitive flag plus 10 for residency outside `['AU','ANZ']`, capped at 100. -/
def calculateCrossBorderRisk (tool : AITool) : Nat :=
  if !tool.cross_border_disclosure then 0
  else
    let score := 60
      + (if tool.processes_personal_info then 20 else 0)
      + (if tool.processes_sensitive_info then 20 else 0)
      + (if jsTruthyStr tool.data_residency
            && !(["AU", "ANZ"].contains (tool.data_residency.getD "")) then 10 else 0)
    min score 100

/-- Source `calculateComplianceRisk`: base 50, `+50` when compliance is verified
false, `-30` when verified true, `+20` for a high-risk vendor, clamped to `[0,100]`. -/
def calculateComplianceRisk (tool : AITool) : Nat :=
  let score : ℤ := 50
    + (if tool.privacy_act_compliant = some false then 50 else 0)
    + (if tool.privacy_act_compliant = some true then -30 else 0)
    + (if jsTruthyStr tool.tool_vendor
          && (["Unknown", "Unverified"].contains (tool.tool_vendor.getD "")) then 20 else 0)
  (min (max score 0) 100).toNat

/-- Source `calculateApprovalRisk`: lookup on `approval_status || 'pending'` with a
`|| 70` fallback applied to the looked-up value.  Because the `'approved'`
entry of the table is `0`, which is falsy, the fallback also fires for
approved tools (embedded faithfully by `jsOrNat`). -/
def calculateApprovalRisk (tool : AITool) : Nat :=
  let key := jsOrStr tool.approval_status "pending"
  let looked : Option Nat :=
    if key = "approved" then some 0
    else if key = "conditional" then some 30
    else if key = "under_review" then some 50
    else if key = "pending" then some 70
    else if key = "restricted" then some 90
    else if key = "banned" then some 100
    else none
  jsOrNat looked 70

/-- Source `generateRecommendations` (free-text advice list). -/
def generateRecommendations (tool : AITool) (riskLevel : RiskLevel) : List String :=
  (if riskLevel = .critical then
    ["Immediate review required before production use",
     "Conduct formal Privacy Impact Assessment (PIA)"] else [])
  ++ (if tool.cross_border_disclosure && tool.processes_personal_info then
    ["Ensure APP 8 compliance for cross-border disclosure",
     "Document cross-border transfer safeguards",
     "Consider data residency requirements"] else [])
  ++ (if tool.processes_sensitive_info then
    ["Implement additional security controls for sensitive data",
     "Ensure proper consent mechanisms are in place",
     "Regular audit of data handling practices"] else [])
  ++ (if !(tool.privacy_act_compliant.getD false) then
    ["Verify vendor Privacy Act 1988 compliance",
     "Request data processing agreement from vendor"] else [])
  ++ (if tool.deployment_type = some "cloud" then
    ["Review cloud provider security certifications",
     "Ensure data encryption in transit and at rest"] else [])
  ++ (if tool.approval_status ≠ some "approved" then
    ["Complete formal approval process before widespread use"] else [])

/-- The five weighted factors of `calculateToolRisk`, in source order. -/
def riskFactors (tool : AITool) : List RiskFactor :=
  [{ category := "Data Sensitivity", score := calculateDataSensitivityRisk tool,
     weight := 0.35,
     description := if tool.processes_sensitive_info then
         "Tool processes sensitive personal information"
       else if tool.processes_personal_info then "Tool processes personal information"
       else "Tool handles general data" },
   { category := "Deployment", score := calculateDeploymentRisk tool,
     weight := 0.20,
     description := jsOrStr tool.deployment_type "unknown" ++ " deployment model" },
   { category := "Cross-Border Transfer", score := calculateCrossBorderRisk tool,
     weight := 0.25,
     description := if tool.cross_border_disclosure then
         "Data transferred outside Australia - APP 8 applies"
       else "Data remains within Australia" },
   { category := "Compliance", score := calculateComplianceRisk tool,
     weight := 0.15,
     description := if tool.privacy_act_compliant.getD false then
         "Tool vendor claims Privacy Act compliance"
       else "Privacy Act compliance not verified" },
   { category := "Approval Status", score := calculateApprovalRisk tool,
     weight := 0.05,
     description := "Tool status: " ++ jsOrStr tool.approval_status "pending" }]

/-- Source `calculateToolRisk`: weighted sum of the factor scores rounded to an
integer, bucketed into a tier by inclusive lower bounds. -/
def calculateToolRisk (tool : AITool) : RiskScore :=
  let factors := riskFactors tool
  let overallRisk : ℤ :=
    jsRound (factors.foldl (fun sum f => sum + (f.score : ℚ) * f.weight) 0)
  let riskLevel : RiskLevel :=
    if overallRisk ≥ 75 then .critical
    else if overallRisk ≥ 50 then .high
    else if overallRisk ≥ 25 then .medium
    else .low
  { overall_risk := overallRisk,
    risk_level := riskLevel,
    risk_factors := factors,
    recommendations := generateRecommendations tool riskLevel }

/-- The tier table as the specification words it: `≥75` critical, `≥50` high,
`≥25` medium, otherwise low (inclusive lower bounds). -/
def specTier (score : ℤ) : RiskLevel :=
  if score ≥ 75 then .critical
  else if score ≥ 50 then .high
  else if score ≥ 25 then .medium
  else .low

/-! ## Data-sensitivity classifier (`assessDataSensitivity`)

The source matches fixed JavaScript regular expressions against the input
text.  The embedding implements each pattern as an executable matcher over
`List Char`: a matcher maps the remaining input to the list of possible
remainders after a match starting at the current position (longest /
first-alternative consumption listed first, mirroring the engine's
backtracking priority).  Word boundaries (`\b`) in the source patterns are
always adjacent to a word character inside the pattern, so they reduce to a
check that the neighbouring outside character is absent or a non-word
character. -/

/-- One character satisfying a class. -/
def mchar (p : Char → Bool) : List Char → List (List Char)
  | [] => []
  | c :: rest => if p c then [rest] else []

/-- Sequential composition of matchers. -/
def mseq (a b : List Char → List (List Char)) (l : List Char) : List (List Char) :=
  (a l).flatMap b

/-- Alternation (left alternative first, as the regex engine tries it). -/
def malt (a b : List Char → List (List Char)) (l : List Char) : List (List Char) :=
  a l ++ b l

/-- Greedy `?`: consuming alternative first. -/
def mopt (a : List Char → List (List Char)) (l : List Char) : List (List Char) :=
  a l ++ [l]

/-- Exactly `n` repetitions. -/
def mrep (a : List Char → List (List Char)) : Nat → List Char → List (List Char)
  | 0 => fun l => [l]
  | n + 1 => mseq a (mrep a n)

/-- Greedy `+` on a character class: all remainders after consuming at least
one class character, longest consumption first. -/
def mplus (p : Char → Bool) : List Char → List (List Char)
  | [] => []
  | c :: rest => if p c then mplus p rest ++ [rest] else []

/-- Greedy `*` on a character class. -/
def mstar (p : Char → Bool) (l : List Char) : List (List Char) :=
  mplus p l ++ [l]

/-- Case-sensitive literal. -/
def mlit : List Char → List Char → List (List Char)
  | [], l => [l]
  | _ :: _, [] => []
  | c :: cs, x :: xs => if x = c then mlit cs xs else []

/-- Case-insensitive literal (for the `/i` address pattern). -/
def mlitCI : List Char → List Char → List (List Char)
  | [], l => [l]
  | _ :: _, [] => []
  | c :: cs, x :: xs => if x.toLower = c.toLower then mlitCI cs xs else []

/-- JavaScript `\d`. -/
def isDigitC (c : Char) : Bool := c.isDigit

/-- JavaScript word character (`\w`), the class deciding `\b` boundaries. -/
def isWordC (c : Char) : Bool := c.isAlphanum || c = '_'

/-- The `[ -]` separator class of the identifier patterns. -/
def isSepC (c : Char) : Bool := c = ' ' || c = '-'

/-- JavaScript `\s`, restricted to the ASCII whitespace characters. -/
def isSpaceC (c : Char) : Bool :=
  c = ' ' || c = '\t' || c = '\n' || c = '\r' || c = '\x0b' || c = '\x0c'

/-- Local part class of the email pattern, `[a-zA-Z0-9._%+-]`. -/
def isEmailLocalC (c : Char) : Bool :=
  c.isAlphanum || c = '.' || c = '_' || c = '%' || c = '+' || c = '-'

/-- Domain class of the email pattern, `[a-zA-Z0-9.-]`. -/
def isEmailDomainC (c : Char) : Bool := c.isAlphanum || c = '.' || c = '-'

/-- ASCII letter, `[A-Za-z]`. -/
def isAlphaC (c : Char) : Bool := c.isAlpha

/-- A leading `\b` immediately followed by a word character in the pattern
holds iff the character before the match (if any) is not a word character. -/
def noWordBefore : Option Char → Bool
  | none => true
  | some c => !isWordC c

/-- A trailing `\b` immediately preceded by a word character in the pattern
holds iff the next unconsumed character (if any) is not a word character. -/
def noWordAfter : List Char → Bool
  | [] => true
  | c :: _ => !isWordC c

/-- Fixed-length digit groups, `\d{n}`. -/
def digitsN (n : Nat) : List Char → List (List Char) := mrep (mchar isDigitC) n

/-- Optional separator, `[ -]?`. -/
def optSep : List Char → List (List Char) := mopt (mchar isSepC)

/-- Matcher for the tax-file-number pattern `\b\d{3}[ -]?\d{3}[ -]?\d{3}\b`
anchored at the current position. -/
def tfnAt (prev : Option Char) (l : List Char) : Bool :=
  noWordBefore prev &&
    ((mseq (digitsN 3) (mseq optSep (mseq (digitsN 3) (mseq optSep (digitsN 3))))) l).any
      noWordAfter

/-- Matcher for the Medicare pattern `\b\d{4}[ -]?\d{5}[ -]?\d\b`. -/
def medicareAt (prev : Option Char) (l : List Char) : Bool :=
  noWordBefore prev &&
    ((mseq (digitsN 4) (mseq optSep (mseq (digitsN 5) (mseq optSep (digitsN 1))))) l).any
      noWordAfter

/-- Matcher for the ABN pattern `\b\d{2}[ -]?\d{3}[ -]?\d{3}[ -]?\d{3}\b`. -/
def abnAt (prev : Option Char) (l : List Char) : Bool :=
  noWordBefore prev &&
    ((mseq (digitsN 2) (mseq optSep (mseq (digitsN 3) (mseq optSep
      (mseq (digitsN 3) (mseq optSep (digitsN 3))))))) l).any noWordAfter

/-- Matcher for the payment-card pattern `\b\d{4}[ -]?\d{4}[ -]?\d{4}[ -]?\d{4}\b`. -/
def creditCardAt (prev : Option Char) (l : List Char) : Bool :=
  noWordBefore prev &&
    ((mseq (digitsN 4) (mseq optSep (mseq (digitsN 4) (mseq optSep
      (mseq (digitsN 4) (mseq optSep (digitsN 4))))))) l).any noWordAfter

/-- Matcher for the email pattern
`[a-zA-Z0-9._%+-]+@[a-zA-Z0-9.-]+\.[a-zA-Z]{2,}` (no boundaries). -/
def emailAt (_prev : Option Char) (l : List Char) : Bool :=
  !((mseq (mplus isEmailLocalC) (mseq (mchar (fun c => c = '@'))
      (mseq (mplus isEmailDomainC) (mseq (mchar (fun c => c = '.'))
        (mseq (mrep (mchar isAlphaC) 2) (mstar isAlphaC)))))) l).isEmpty

/-- Matcher for the phone pattern `(\+61|0)[2-478](?:[ -]?[0-9]){8}`. -/
def phoneAt (_prev : Option Char) (l : List Char) : Bool :=
  !((mseq (malt (mlit ['+', '6', '1']) (mlit ['0']))
      (mseq (mchar (fun c => ['2', '3', '4', '7', '8'].contains c))
        (mrep (mseq optSep (mchar isDigitC)) 8))) l).isEmpty

/-- Alternation of the street suffixes of the address pattern, in source order. -/
def streetSuffix : List Char → List (List Char) :=
  [malt (mlitCI "Street".data), malt (mlitCI "St".data), malt (mlitCI "Road".data),
   malt (mlitCI "Rd".data), malt (mlitCI "Avenue".data), malt (mlitCI "Ave".data),
   malt (mlitCI "Drive".data), malt (mlitCI "Dr".data), malt (mlitCI "Court".data),
   malt (mlitCI "Ct".data), malt (mlitCI "Place".data)].foldr
    (fun f acc => f acc) (mlitCI "Pl".data)

/-- Matcher for the street-address pattern
`\b\d+\s+[A-Za-z]+\s+(Street|St|Road|Rd|Avenue|Ave|Drive|Dr|Court|Ct|Place|Pl)\b`
with the `/i` flag. -/
def addressAt (prev : Option Char) (l : List Char) : Bool :=
  noWordBefore prev &&
    ((mseq (mplus isDigitC) (mseq (mplus isSpaceC) (mseq (mplus isAlphaC)
      (mseq (mplus isSpaceC) streetSuffix)))) l).any noWordAfter

/-- Scan every start position of the text, tracking the previous character for
boundary checks; true iff the anchored matcher succeeds anywhere. -/
def scanM (pat : Option Char → List Char → Bool) : Option Char → List Char → Bool
  | prev, [] => pat prev []
  | prev, c :: rest => pat prev (c :: rest) || scanM pat (some c) rest

/-- RegExp.test on the whole text. -/
def testPat (pat : Option Char → List Char → Bool) (content : String) : Bool :=
  scanM pat none content.data

/-- Rest-of-list check for a literal at the head. -/
def beginsWith : List Char → List Char → Bool
  | [], _ => true
  | _ :: _, [] => false
  | a :: as, b :: bs => a = b && beginsWith as bs

/-- String containment used for `lowerContent.includes(keyword)`. -/
def containsSub (needle : List Char) : List Char → Bool
  | [] => beginsWith needle []
  | c :: t => beginsWith needle (c :: t) || containsSub needle t

/-- The fixed sensitive-keyword list of the classifier, in source order. -/
def sensitiveKeywords : List String :=
  ["confidential", "restricted", "health", "medical", "diagnosis",
   "financial", "salary", "wage", "income", "tax",
   "criminal", "conviction", "offense"]

/-- Personal-identifier test: email, phone or street address matches. -/
def personalPatternHit (content : String) : Bool :=
  testPat emailAt content || testPat phoneAt content || testPat addressAt content

/-- High-sensitivity identifier test: TFN, Medicare or payment card matches. -/
def sensitivePatternHit (content : String) : Bool :=
  testPat tfnAt content || testPat medicareAt content || testPat creditCardAt content

/-- Keyword test on the lower-cased content. -/
def keywordHit (content : String) : Bool :=
  sensitiveKeywords.any (fun k => containsSub k.data (content.data.map Char.toLower))

/-! Match counting for the confidence output (`content.match(pattern).length`):
repeatedly take the engine's first match (head of the priority-ordered
remainder list) and continue after it; every pattern consumes at least one
character, so fuel `length + 1` is enough. -/

/-- One global-match counting pass with explicit fuel. -/
def countLoop (pat : Option Char → List Char → List (List Char)) :
    Nat → Option Char → List Char → Nat
  | 0, _, _ => 0
  | fuel + 1, prev, l =>
    match pat prev l with
    | rem :: _ =>
      if rem.length < l.length then
        1 + countLoop pat fuel ((l.take (l.length - rem.length)).getLast?) rem
      else 1
    | [] =>
      match l with
      | [] => 0
      | c :: rest => countLoop pat fuel (some c) rest

/-- Number of matches of a pattern in the text (global flag). -/
def countMatches (pat : Option Char → List Char → List (List Char)) (content : String) : Nat :=
  countLoop pat (content.data.length + 1) none content.data

/-- Remainder-level matcher of a boundary-anchored pattern (used for counting). -/
def withBounds (core : List Char → List (List Char)) (prev : Option Char) (l : List Char) :
    List (List Char) :=
  if noWordBefore prev then (core l).filter noWordAfter else []

/-- Remainder-level matcher of an unanchored pattern (used for counting). -/
def noBounds (core : List Char → List (List Char)) (_prev : Option Char) (l : List Char) :
    List (List Char) :=
  core l

/-- Total matches across the seven patterns, in source order. -/
def totalPatternMatches (content : String) : Nat :=
  countMatches (noBounds (mseq (mplus isEmailLocalC) (mseq (mchar (fun c => c = '@'))
      (mseq (mplus isEmailDomainC) (mseq (mchar (fun c => c = '.'))
        (mseq (mrep (mchar isAlphaC) 2) (mstar isAlphaC))))))) content
  + countMatches (noBounds (mseq (malt (mlit ['+', '6', '1']) (mlit ['0']))
      (mseq (mchar (fun c => ['2', '3', '4', '7', '8'].contains c))
        (mrep (mseq optSep (mchar isDigitC)) 8)))) content
  + countMatches (withBounds (mseq (digitsN 3) (mseq optSep (mseq (digitsN 3)
      (mseq optSep (digitsN 3)))))) content
  + countMatches (withBounds (mseq (digitsN 4) (mseq optSep (mseq (digitsN 5)
      (mseq optSep (digitsN 1)))))) content
  + countMatches (withBounds (mseq (digitsN 2) (mseq optSep (mseq (digitsN 3)
      (mseq optSep (mseq (digitsN 3) (mseq optSep (digitsN 3)))))))) content
  + countMatches (withBounds (mseq (digitsN 4) (mseq optSep (mseq (digitsN 4)
      (mseq optSep (mseq (digitsN 4) (mseq optSep (digitsN 4)))))))) content
  + countMatches (withBounds (mseq (mplus isDigitC) (mseq (mplus isSpaceC)
      (mseq (mplus isAlphaC) (mseq (mplus isSpaceC) streetSuffix))))) content

/-- Output record of the classifier. -/
structure DataClassification where
  classification : String
  contains_personal_info : Bool
  contains_sensitive_info : Bool
  confidence : ℚ
  deriving DecidableEq

/-- Source `assessDataSensitivity`: sequential flag/classification updates
(personal identifiers, then sensitive identifiers, then keywords), and a
saturating confidence heuristic. -/
def assessDataSensitivity (content : String) : DataClassification :=
  let containsPersonalInfo := false
  let containsSensitiveInfo := false
  let classification := "public"
  -- personal identifiers (email, phone, address)
  let containsPersonalInfo :=
    if personalPatternHit content then true else containsPersonalInfo
  let classification :=
    if personalPatternHit content then "internal" else classification
  -- sensitive identifiers (TFN, Medicare, payment card)
  let containsSensitiveInfo :=
    if sensitivePatternHit content then true else containsSensitiveInfo
  let containsPersonalInfo :=
    if sensitivePatternHit content then true else containsPersonalInfo
  let classification :=
    if sensitivePatternHit content then "restricted" else classification
  -- keyword list
  let classification :=
    if keywordHit content then
      (if classification = "public" then "confidential" else classification)
    else classification
  let containsPersonalInfo :=
    if keywordHit content then true else containsPersonalInfo
  let confidence : ℚ := min ((totalPatternMatches content : ℚ) * 0.2 + 0.5) 1.0
  { classification := classification,
    contains_personal_info := containsPersonalInfo,
    contains_sensitive_info := containsSensitiveInfo,
    confidence := confidence }

/-! ## Policy enforcement engine (policy library) -/

/-- Rule bundle of a policy.  Optional members model absent JSON keys; the
boolean members model the truthiness checks the source performs on them. -/
structure PolicyRules where
  forbidden_data_types : Option (List String)
  allowed_data_types : Option (List String)
  block_personal_info : Bool
  block_sensitive_info : Bool
  require_approved_tools : Bool
  block_cross_border : Bool
  require_consent_for_personal_info : Bool
  max_token_limit : Option Nat
  require_approval_above_cost : Option ℚ
  deriving DecidableEq

/-- Organization policy record (also the shape of a `byoai_policies` row). -/
structure Policy where
  id : String
  organization_id : String
  policy_name : String
  policy_type : String
  rules : PolicyRules
  enforcement_level : String
  auto_remediation : Bool
  applicable_roles : Option (List String)
  applicable_departments : Option (List String)
  applicable_tools : Option (List String)
  priority : Nat
  deriving DecidableEq

/-- Usage context evaluated against policies. -/
structure Usage where
  tool_id : String
  tool_approval_status : Option String
  user_role : Option String
  user_department : Option String
  data_classification : String
  contains_personal_info : Bool
  contains_sensitive_info : Bool
  cross_border : Option Bool
  token_count : Option Nat
  estimated_cost : Option ℚ
  deriving DecidableEq

/-- One violated-rule record produced by the rule evaluator. -/
structure ViolatedPolicy where
  policy_id : String
  policy_name : String
  policy_type : String
  rule_violated : String
  enforcement_level : String
  severity : String
  message : String
  deriving DecidableEq

/-- Three-valued enforcement decision. -/
inductive Decision where
  | allow | warn | block
  deriving DecidableEq

/-- Result of evaluating one policy against a usage context. -/
structure PolicyResult where
  allowed : Bool
  violated_policies : List ViolatedPolicy
  enforcement_action : Decision
  warnings : List String
  auto_remediation_triggered : Bool
  deriving DecidableEq

/-- Source `isPolicyApplicable`: role / department / tool-ID allow-lists, an
empty or absent list applying universally.  An absent or empty
`user_role`/`user_department` is falsy in the source and fails a nonempty
restriction list. -/
def isPolicyApplicable (policy : Policy) (usage : Usage) : Bool :=
  (match policy.applicable_roles with
   | some roles =>
     if roles.length > 0 then
       match usage.user_role with
       | some r => r != "" && roles.contains r
       | none => false
     else true
   | none => true) &&
  (match policy.applicable_departments with
   | some deps =>
     if deps.length > 0 then
       match usage.user_department with
       | some d => d != "" && deps.contains d
       | none => false
     else true
   | none => true) &&
  (match policy.applicable_tools with
   | some tools =>
     if tools.length > 0 then tools.contains usage.tool_id else true
   | none => true)

/-- Constructor shared by all rule breaches of one policy. -/
def mkViolated (policy : Policy) (rule sev msg : String) : ViolatedPolicy :=
  { policy_id := policy.id, policy_name := policy.policy_name,
    policy_type := policy.policy_type, rule_violated := rule,
    enforcement_level := policy.enforcement_level, severity := sev, message := msg }

/-- Source `evaluatePolicyRules`: the seven rule kinds checked in source
order, each appending one violation when it fires.  Numeric thresholds use
JavaScript truthiness (a zero limit or count never fires) and strict
greater-than. -/
def evaluatePolicyRules (policy : Policy) (usage : Usage) : List ViolatedPolicy :=
  (if (match policy.rules.forbidden_data_types with
       | some ts => ts.contains usage.data_classification
       | none => false) then
    [mkViolated policy "forbidden_data_type"
      (if policy.enforcement_level = "block" then "high" else "warning")
      ("Data classification \'" ++ usage.data_classification ++
        "\' is forbidden by this policy")] else [])
  ++ (if (match policy.rules.allowed_data_types with
          | some ts => !(ts.contains usage.data_classification)
          | none => false) then
    [mkViolated policy "data_type_not_allowed" "warning"
      ("Data classification \'" ++ usage.data_classification ++
        "\' is not in allowed list")] else [])
  ++ (if policy.rules.block_personal_info && usage.contains_personal_info then
    [mkViolated policy "personal_info_blocked" "high"
      "Personal information processing is blocked by this policy"] else [])
  ++ (if policy.rules.block_sensitive_info && usage.contains_sensitive_info then
    [mkViolated policy "sensitive_info_blocked" "critical"
      "Sensitive information processing is blocked by this policy"] else [])
  ++ (if policy.rules.require_approved_tools
        && !(usage.tool_approval_status == some "approved") then
    [mkViolated policy "unapproved_tool" "high"
      "Only approved tools are allowed by this policy"] else [])
  ++ (if policy.rules.block_cross_border && usage.cross_border.getD false then
    [mkViolated policy "cross_border_blocked" "critical"
      "Cross-border data transfer is blocked by this policy"] else [])
  ++ (if (match policy.rules.max_token_limit, usage.token_count with
          | some m, some t => m != 0 && t != 0 && decide (t > m)
          | _, _ => false) then
    [mkViolated policy "token_limit_exceeded" "warning"
      ("Token count " ++ toString (usage.token_count.getD 0) ++
        " exceeds limit of " ++ toString (policy.rules.max_token_limit.getD 0))] else [])
  ++ (if (match policy.rules.require_approval_above_cost, usage.estimated_cost with
          | some m, some c => m != 0 && c != 0 && decide (c > m)
          | _, _ => false) then
    [mkViolated policy "cost_approval_required" "warning"
      ("Estimated cost $" ++ toString (usage.estimated_cost.getD 0) ++
        " requires approval (threshold: $" ++
        toString (policy.rules.require_approval_above_cost.getD 0) ++ ")")] else [])

/-- Source `evaluatePolicy`: applicability gate, rule evaluation, then the
per-policy enforcement decision from the policy\'s level. -/
def evaluatePolicy (policy : Policy) (usage : Usage) : PolicyResult :=
  if !(isPolicyApplicable policy usage) then
    { allowed := true, violated_policies := [], enforcement_action := .allow,
      warnings := [], auto_remediation_triggered := false }
  else
    let violations := evaluatePolicyRules policy usage
    if violations.length > 0 then
      if policy.enforcement_level = "block" then
        { allowed := false, violated_policies := violations,
          enforcement_action := .block, warnings := [],
          auto_remediation_triggered := policy.auto_remediation }
      else if policy.enforcement_level = "alert" then
        { allowed := true, violated_policies := violations,
          enforcement_action := .warn,
          warnings := ["Policy violation: " ++ policy.policy_name],
          auto_remediation_triggered := policy.auto_remediation }
      else
        { allowed := true, violated_policies := violations,
          enforcement_action := .allow,
          warnings := ["Monitored: " ++ policy.policy_name],
          auto_remediation_triggered := policy.auto_remediation }
    else
      { allowed := true, violated_policies := [], enforcement_action := .allow,
        warnings := [], auto_remediation_triggered := false }

/-- Modelled from the spec: the Policy Evaluator contract aggregates the
per-policy decisions of `evaluatePolicy` over the whole policy list into one
decision by strictness (the source realizes the per-policy decision in the
policy library and only the block tier of the aggregate in the usage route;
the three-way list aggregation itself is not under `src/`). -/
def aggregateDecision (policies : List Policy) (usage : Usage) : Decision :=
  if policies.any (fun p => (evaluatePolicy p usage).enforcement_action == Decision.block)
    then .block
  else if policies.any (fun p => (evaluatePolicy p usage).enforcement_action == Decision.warn)
    then .warn
  else .allow

/-! ## Usage-logging route: `evaluatePolicies`, violation creation, log row -/

/-- Usage fields the usage-logging route passes to its policy check. -/
structure UsageData where
  data_classification : String
  contains_personal_info : Bool
  contains_sensitive_info : Bool
  tool_approval_status : Option String
  deriving DecidableEq

/-- Violation entry pushed by the route\'s `evaluatePolicies`. -/
structure FlagViolation where
  policy_id : String
  policy_name : String
  rule_violated : String
  severity : String
  deriving DecidableEq

/-- Accumulated result of the route\'s `evaluatePolicies`. -/
structure PoliciesCheck where
  violations : List FlagViolation
  shouldBlock : Bool
  blockReason : Option String
  deriving DecidableEq

/-- Forbidden-classification rule of the route\'s `evaluatePolicies`. -/
def usageForbiddenHit (policy : Policy) (u : UsageData) : Bool :=
  match policy.rules.forbidden_data_types with
  | some ts => ts.contains u.data_classification
  | none => false

/-- Personal-info rule of the route\'s `evaluatePolicies`. -/
def usagePersonalHit (policy : Policy) (u : UsageData) : Bool :=
  policy.rules.block_personal_info && u.contains_personal_info

/-- Tool-approval rule of the route\'s `evaluatePolicies`. -/
def usageApprovalHit (policy : Policy) (u : UsageData) : Bool :=
  policy.rules.require_approved_tools && !(u.tool_approval_status == some "approved")

/-- A policy is violated in the route\'s `evaluatePolicies` iff one of its
three checked rules fires. -/
def usageViolates (policy : Policy) (u : UsageData) : Bool :=
  usageForbiddenHit policy u || usagePersonalHit policy u || usageApprovalHit policy u

/-- Loop body of the route\'s `evaluatePolicies` for one policy: the three
rule checks in source order, each appending a violation and, at block level,
raising `shouldBlock` and overwriting `blockReason`. -/
def policiesStep (u : UsageData) (acc : PoliciesCheck) (policy : Policy) : PoliciesCheck :=
  let acc :=
    if usageForbiddenHit policy u then
      { violations := acc.violations ++
          [{ policy_id := policy.id, policy_name := policy.policy_name,
             rule_violated := "forbidden_data_type",
             severity := if policy.enforcement_level = "block" then "high" else "warning" }],
        shouldBlock := acc.shouldBlock || policy.enforcement_level == "block",
        blockReason := if policy.enforcement_level = "block" then
            some ("Data classification \'" ++ u.data_classification ++
              "\' is forbidden by policy \'" ++ policy.policy_name ++ "\'")
          else acc.blockReason }
    else acc
  let acc :=
    if usagePersonalHit policy u then
      { violations := acc.violations ++
          [{ policy_id := policy.id, policy_name := policy.policy_name,
             rule_violated := "personal_info_blocked", severity := "high" }],
        shouldBlock := acc.shouldBlock || policy.enforcement_level == "block",
        blockReason := if policy.enforcement_level = "block" then
            some ("Personal information processing blocked by policy \'" ++
              policy.policy_name ++ "\'")
          else acc.blockReason }
    else acc
  let acc :=
    if usageApprovalHit policy u then
      { violations := acc.violations ++
          [{ policy_id := policy.id, policy_name := policy.policy_name,
             rule_violated := "unapproved_tool", severity := "high" }],
        shouldBlock := acc.shouldBlock || policy.enforcement_level == "block",
        blockReason := if policy.enforcement_level = "block" then
            some ("Only approved tools are allowed by policy \'" ++
              policy.policy_name ++ "\'")
          else acc.blockReason }
    else acc
  acc

/-- Source `evaluatePolicies` of the usage-logging route: a fold of
`policiesStep` over the organization\'s active policies. -/
def evaluatePolicies (policies : List Policy) (usageData : UsageData) : PoliciesCheck :=
  policies.foldl (policiesStep usageData) ⟨[], false, none⟩

/-! ## Violations route: remediation update, creation, OAIC reportability -/

/-- Remediation lifecycle states (the zod enum of the violations route). -/
inductive RemStatus where
  | pending | acknowledged | under_investigation
  | remediated | false_positive | accepted_risk
  deriving DecidableEq

/-- Validated body of a remediation update request. -/
structure ViolationUpdate where
  violation_id : String
  remediation_status : Option RemStatus
  remediation_notes : Option String
  remediation_steps : Option (List (String × String))
  deriving DecidableEq

/-- Stored violation fields touched by the remediation update handler. -/
structure ViolationRec where
  id : String
  remediation_status : RemStatus
  remediated_by : Option String
  remediated_at : Option String
  remediation_notes : Option String
  remediation_steps : Option (List (String × String))
  deriving DecidableEq

deriving instance DecidableEq for Except

/-- Source `PUT` handler of the violations route, applied to the violation row
it addresses: a role gate, then the unconditional field updates (a requested
status is applied whatever the current status is; empty-string notes are
falsy and skipped; a present steps object is truthy even when empty). -/
def putUpdate (role userId now : String) (v : ViolationRec) (req : ViolationUpdate) :
    Except Nat ViolationRec :=
  if !(["owner", "admin", "compliance_officer"].contains role) then .error 403
  else
    let v1 := match req.remediation_status with
      | some s =>
        { v with remediation_status := s,
                 remediated_by := some userId, remediated_at := some now }
      | none => v
    let v2 := match req.remediation_notes with
      | some n => if n != "" then { v1 with remediation_notes := some n } else v1
      | none => v1
    let v3 := match req.remediation_steps with
      | some st => { v2 with remediation_steps := some st }
      | none => v2
    .ok v3

/-- Remediation lifecycle of the specification:
`pending -> \x7backnowledged, under_investigation\x7d -> \x7bremediated, false_positive, accepted_risk\x7d`,
with terminal states final. -/
def specLifecycleStep (src dst : RemStatus) : Bool :=
  match src, dst with
  | .pending, .acknowledged => true
  | .pending, .under_investigation => true
  | .acknowledged, .remediated => true
  | .acknowledged, .false_positive => true
  | .acknowledged, .accepted_risk => true
  | .under_investigation, .remediated => true
  | .under_investigation, .false_positive => true
  | .under_investigation, .accepted_risk => true
  | _, _ => false

/-- Row inserted by `createViolations` of the usage-logging route for one
policy violation flag. -/
structure ViolationInsert where
  organization_id : String
  user_id : String
  tool_id : String
  policy_id : String
  usage_log_id : String
  violation_type : String
  severity : String
  details : FlagViolation
  remediation_status : RemStatus
  deriving DecidableEq

/-- Source `createViolations` (per violation flag): auto-blocked violations
are created directly in `acknowledged`, the rest in `pending`. -/
def createViolationRow (orgId userId toolId usageLogId : String) (autoBlocked : Bool)
    (violation : FlagViolation) : ViolationInsert :=
  { organization_id := orgId, user_id := userId, tool_id := toolId,
    policy_id := violation.policy_id, usage_log_id := usageLogId,
    violation_type := violation.rule_violated, severity := violation.severity,
    details := violation,
    remediation_status := if autoBlocked then .acknowledged else .pending }

/-- Nested `details` object of a violation, as far as the reportability
assessor reads it. -/
structure ViolationDetails where
  involves_sensitive_info : Bool
  deriving DecidableEq

/-- Violation fields read by `assessOAICReportability`. -/
structure ViolationCtx where
  severity : String
  potential_privacy_breach : Bool
  affected_data_subjects : Option Nat
  details : Option ViolationDetails
  deriving DecidableEq

/-- Source `assessOAICReportability`: three independent NDB-scheme conditions
checked in turn (a zero or absent subject count is falsy and short-circuits
the second condition). -/
def assessOAICReportability (v : ViolationCtx) : Bool :=
  if v.severity == "critical" && v.potential_privacy_breach then true
  else if (match v.affected_data_subjects with
           | some n => n != 0 && decide (n ≥ 100)
           | none => false) then true
  else if (match v.details with
           | some d => d.involves_sensitive_info
           | none => false) && v.severity == "high" then true
  else false

/-! ## Compliance-framework assessment route -/

/-- One checklist finding. -/
structure Finding where
  requirement : String
  compliant : Bool
  details : String
  severity : String
  recommendation : String
  deriving DecidableEq

/-- Registry-row fields the assessments read. -/
structure ToolRow where
  approval_status : Option String
  terms_of_service_url : Option String
  deriving DecidableEq

/-- Organization fields the consumer-law assessment reads. -/
structure OrgRow where
  compliance_framework : Option String
  deriving DecidableEq

/-- Organization snapshot the assessment route fetches before assessing: each
member is the `data` of one query (`none` embeds a null result, `some []` an
empty row set). -/
structure OrgSnapshot where
  activePolicies : Option (List Policy)
  personalInfoUsage : Option (List Unit)
  personalInfoTools : Option (List ToolRow)
  crossBorderTools : Option (List Unit)
  recentBreaches : Option (List Unit)
  pendingReportable : Option (List Unit)
  org : Option OrgRow
  activeTools : Option (List ToolRow)
  deriving DecidableEq

/-- Source `assessPrivacyAct`: the six Privacy Act 1988 checklist findings in
source order, with JavaScript truthiness on the fetched row sets. -/
def assessPrivacyAct (s : OrgSnapshot) : List Finding :=
  let policyCount := match s.activePolicies with
    | some l => l.length
    | none => 0
  let hasPersonalInfoPolicy := match s.activePolicies with
    | some l => l.any (fun p =>
        p.rules.block_personal_info || p.rules.require_consent_for_personal_info)
    | none => false
  let hasCrossBorderPolicy := match s.activePolicies with
    | some l => l.any (fun p => p.rules.block_cross_border)
    | none => false
  let approvedPersonalInfoTools : List ToolRow := match s.personalInfoTools with
    | some l => l.filter (fun t => t.approval_status == some "approved")
    | none => []
  [{ requirement := "APP 1: Privacy policy exists",
     compliant := match s.activePolicies with
       | some l => decide (l.length > 0)
       | none => false,
     details := "Found " ++ toString policyCount ++ " active policies",
     severity := "high",
     recommendation := "Create privacy policies for AI tool usage" },
   { requirement := "APP 3: Personal information collection controls",
     compliant := s.personalInfoUsage.isNone || hasPersonalInfoPolicy,
     details := if hasPersonalInfoPolicy then
         "Policies exist for personal information handling"
       else "Personal information used without specific policy",
     severity := "critical",
     recommendation :=
       "Implement policies to control personal information collection in AI tools" },
   { requirement := "APP 6: Personal information tools approved",
     compliant := match s.personalInfoTools with
       | some l => decide (l.length = approvedPersonalInfoTools.length)
       | none => false,
     details := toString approvedPersonalInfoTools.length ++ "/" ++
       toString (match s.personalInfoTools with
         | some l => l.length
         | none => 0) ++ " tools processing personal info are approved",
     severity := "high",
     recommendation :=
       "Ensure all tools processing personal information are properly approved" },
   { requirement := "APP 8: Cross-border data transfer controls",
     compliant := (match s.crossBorderTools with
       | some l => decide (l.length = 0)
       | none => true) || hasCrossBorderPolicy,
     details := if (match s.crossBorderTools with
         | some l => decide (l.length ≠ 0)
         | none => false) then
         toString (match s.crossBorderTools with
           | some l => l.length
           | none => 0) ++ " tools transfer data cross-border"
       else "No cross-border data transfers detected",
     severity := "critical",
     recommendation := "Implement controls for cross-border AI tool usage" },
   { requirement := "APP 11: No recent security incidents",
     compliant := match s.recentBreaches with
       | some l => decide (l.length = 0)
       | none => true,
     details := toString (match s.recentBreaches with
       | some l => l.length
       | none => 0) ++ " potential privacy breaches in last 30 days",
     severity := "critical",
     recommendation := "Review and remediate all security incidents" },
   { requirement := "NDB: All reportable breaches addressed",
     compliant := match s.pendingReportable with
       | some l => decide (l.length = 0)
       | none => true,
     details := toString (match s.pendingReportable with
       | some l => l.length
       | none => 0) ++ " reportable breaches pending remediation",
     severity := "critical",
     recommendation := "Immediately address all OAIC-reportable breaches" }]

/-- Source `assessConsumerLaw`: the two Australian Consumer Law findings. -/
def assessConsumerLaw (s : OrgSnapshot) : List Finding :=
  let toolsWithTerms : List ToolRow := match s.activeTools with
    | some l => l.filter (fun t => jsTruthyStr t.terms_of_service_url)
    | none => []
  [{ requirement := "ACL: Transparent AI tool usage disclosure",
     compliant := match s.org with
       | some o => jsTruthyStr o.compliance_framework
       | none => false,
     details := if (match s.org with
         | some o => jsTruthyStr o.compliance_framework
         | none => false) then
         "Compliance framework: " ++ (match s.org with
           | some o => o.compliance_framework.getD ""
           | none => "")
       else "No compliance framework configured",
     severity := "medium",
     recommendation := "Document and disclose AI tool usage to stakeholders" },
   { requirement := "ACL: AI tools have clear terms of service",
     compliant := match s.activeTools with
       | some l => decide (l.length = toolsWithTerms.length)
       | none => false,
     details := toString toolsWithTerms.length ++ "/" ++
       toString (match s.activeTools with
         | some l => l.length
         | none => 0) ++ " tools have terms of service documented",
     severity := "medium",
     recommendation := "Ensure all AI tools have documented terms of service" }]

/-- One generated recommendation of the assessment result. -/
structure AssessRecommendation where
  finding : String
  recommendation : String
  priority : String
  deriving DecidableEq

/-- Assessment result record. -/
structure AssessmentResult where
  framework_code : String
  framework_name : String
  compliance_score : ℤ
  max_score : Nat
  findings : List Finding
  recommendations : List AssessRecommendation
  deriving DecidableEq

/-- Source `runComplianceAssessment`: pick the framework checklist, score
`round(passed / total * 100)` with an explicit guard for zero checks, and
emit one recommendation per non-compliant finding. -/
def runComplianceAssessment (frameworkCode frameworkName : String) (s : OrgSnapshot) :
    AssessmentResult :=
  let findings :=
    if frameworkCode = "au_privacy_act" then assessPrivacyAct s
    else if frameworkCode = "au_consumer_law" then assessConsumerLaw s
    else []
  let totalChecks := findings.length
  let passedChecks := (findings.filter (fun f => f.compliant)).length
  { framework_code := frameworkCode,
    framework_name := frameworkName,
    compliance_score :=
      if totalChecks > 0 then jsRound ((passedChecks : ℚ) / (totalChecks : ℚ) * 100)
      else 0,
    max_score := totalChecks * 100,
    findings := findings,
    recommendations := (findings.filter (fun f => !f.compliant)).map
      (fun f => { finding := f.requirement, recommendation := f.recommendation,
                  priority := f.severity }) }

/-! ## Usage-logging route: the stored log row -/

/-- Validated body of a usage-log request (the zod schema), including the raw
prompt text. -/
structure ValidatedUsageLog where
  tool_id : String
  session_id : Option String
  request_id : Option String
  data_classification : String
  contains_personal_info : Bool
  contains_sensitive_info : Bool
  prompt_text : String
  prompt_token_count : Option Nat
  response_token_count : Option Nat
  response_size_bytes : Option Nat
  use_case_category : Option String
  user_department : Option String
  estimated_cost_usd : Option ℚ
  deriving DecidableEq

/-- The `ai_usage_logs` row the route inserts: it has a `prompt_hash` member
and no prompt-text member. -/
structure UsageLogRow where
  organization_id : String
  user_id : String
  tool_id : String
  session_id : Option String
  request_id : Option String
  data_classification : String
  contains_personal_info : Bool
  contains_sensitive_info : Bool
  prompt_hash : String
  prompt_token_count : Option Nat
  response_token_count : Option Nat
  response_size_bytes : Option Nat
  compliance_flags : Option (List FlagViolation)
  auto_blocked : Bool
  block_reason : Option String
  user_department : Option String
  use_case_category : Option String
  ip_address : Option String
  user_agent : Option String
  estimated_cost_usd : Option ℚ
  deriving DecidableEq

/-- Source `POST` of the usage-logging route, the part that builds the
inserted row.  The SHA-256 digest is the one-way function of the platform
(node `crypto`, outside this repository), passed in as a parameter; the row
depends on the prompt only through it. -/
def buildUsageLogRow (sha256hex : String → String) (orgId userId : String)
    (toolApprovalStatus : Option String) (v : ValidatedUsageLog)
    (policies : Option (List Policy)) (ip userAgent : Option String) : UsageLogRow :=
  let promptHash := sha256hex v.prompt_text
  let check : Option PoliciesCheck := policies.map (fun ps =>
    evaluatePolicies ps
      { data_classification := v.data_classification,
        contains_personal_info := v.contains_personal_info,
        contains_sensitive_info := v.contains_sensitive_info,
        tool_approval_status := toolApprovalStatus })
  let complianceFlags := match check with
    | some c => if c.violations.length > 0 then some c.violations else none
    | none => none
  let autoBlocked := match check with
    | some c => c.shouldBlock
    | none => false
  let blockReason := match check with
    | some c => c.blockReason
    | none => none
  { organization_id := orgId, user_id := userId, tool_id := v.tool_id,
    session_id := v.session_id, request_id := v.request_id,
    data_classification := v.data_classification,
    contains_personal_info := v.contains_personal_info,
    contains_sensitive_info := v.contains_sensitive_info,
    prompt_hash := promptHash,
    prompt_token_count := v.prompt_token_count,
    response_token_count := v.response_token_count,
    response_size_bytes := v.response_size_bytes,
    compliance_flags := complianceFlags,
    auto_blocked := autoBlocked,
    block_reason := blockReason,
    user_department := v.user_department,
    use_case_category := v.use_case_category,
    ip_address := ip, user_agent := userAgent,
    estimated_cost_usd := v.estimated_cost_usd }

/-! ## Helper lemmas -/

/-- Rounding is monotone. -/
lemma jsRound_mono {a b : ℚ} (h : a ≤ b) : jsRound a ≤ jsRound b :=
  Int.floor_le_floor (by linarith)

/-- The overall risk is the rounded weighted sum of the five sub-scores. -/
lemma calculateToolRisk_overall (t : AITool) :
    (calculateToolRisk t).overall_risk =
      jsRound ((calculateDataSensitivityRisk t : ℚ) * 0.35
        + (calculateDeploymentRisk t : ℚ) * 0.20
        + (calculateCrossBorderRisk t : ℚ) * 0.25
        + (calculateComplianceRisk t : ℚ) * 0.15
        + (calculateApprovalRisk t : ℚ) * 0.05) := by
  simp only [calculateToolRisk, riskFactors, List.foldl_cons, List.foldl_nil]
  congr 1
  ring

/-- One loop iteration of the route evaluator raises `shouldBlock` exactly for
a violated block-level policy. -/
lemma policiesStep_shouldBlock (u : UsageData) (acc : PoliciesCheck) (p : Policy) :
    (policiesStep u acc p).shouldBlock =
      (acc.shouldBlock || (usageViolates p u && p.enforcement_level == "block")) := by
  simp only [policiesStep, usageViolates]
  cases hf : usageForbiddenHit p u <;> cases hp : usagePersonalHit p u <;>
    cases ha : usageApprovalHit p u <;>
    simp [hf, hp, ha]

/-- Fold form of the previous lemma. -/
lemma foldl_policiesStep_shouldBlock (u : UsageData) :
    ∀ (ps : List Policy) (acc : PoliciesCheck),
      (ps.foldl (policiesStep u) acc).shouldBlock =
        (acc.shouldBlock ||
          ps.any (fun p => usageViolates p u && p.enforcement_level == "block")) := by
  intro ps
  induction ps with
  | nil => intro acc; simp
  | cons p ps ih =>
    intro acc
    simp only [List.foldl_cons, List.any_cons]
    rw [ih, policiesStep_shouldBlock]
    cases acc.shouldBlock <;> simp [Bool.or_assoc]

/-- The route evaluator blocks iff some policy in the list is violated at
block level. -/
lemma evaluatePolicies_shouldBlock (ps : List Policy) (u : UsageData) :
    (evaluatePolicies ps u).shouldBlock =
      ps.any (fun p => usageViolates p u && p.enforcement_level == "block") := by
  simpa using foldl_policiesStep_shouldBlock u ps ⟨[], false, none⟩

/-- Existence under `any` is permutation-invariant. -/
lemma any_congr_perm {α : Type} {l₁ l₂ : List α} (h : l₁.Perm l₂) (f : α → Bool) :
    l₁.any f = l₂.any f := by
  cases hp : l₁.any f <;> cases hq : l₂.any f <;> try rfl
  · rw [List.any_eq_false] at hp
    rw [List.any_eq_true] at hq
    obtain ⟨x, hx, hfx⟩ := hq
    exact absurd hfx (by simpa using hp x (h.mem_iff.mpr hx))
  · rw [List.any_eq_false] at hq
    rw [List.any_eq_true] at hp
    obtain ⟨x, hx, hfx⟩ := hp
    exact absurd hfx (by simpa using hq x (h.mem_iff.mp hx))

/-- The per-policy decision is `block` iff the policy is applicable, violated
and block-level. -/
lemma evaluatePolicy_action_block_iff (p : Policy) (u : Usage) :
    (evaluatePolicy p u).enforcement_action = .block ↔
      (isPolicyApplicable p u = true ∧ evaluatePolicyRules p u ≠ [] ∧
        p.enforcement_level = "block") := by
  simp only [evaluatePolicy]
  cases hap : isPolicyApplicable p u
  · simp
  · cases hv : evaluatePolicyRules p u with
    | nil => simp
    | cons x xs =>
      by_cases hb : p.enforcement_level = "block"
      · simp [hb]
      · by_cases ha : p.enforcement_level = "alert" <;> simp [hb, ha]

/-- The per-policy decision is `warn` iff the policy is applicable, violated
and alert-level. -/
lemma evaluatePolicy_action_warn_iff (p : Policy) (u : Usage) :
    (evaluatePolicy p u).enforcement_action = .warn ↔
      (isPolicyApplicable p u = true ∧ evaluatePolicyRules p u ≠ [] ∧
        p.enforcement_level = "alert") := by
  simp only [evaluatePolicy]
  cases hap : isPolicyApplicable p u
  · simp
  · cases hv : evaluatePolicyRules p u with
    | nil => simp
    | cons x xs =>
      by_cases hb : p.enforcement_level = "block"
      · simp [hb]
      · by_cases ha : p.enforcement_level = "alert" <;> simp [hb, ha]

/-- Optional-chain access `details?.involves_sensitive_info`. -/
def involvesSensitiveInfo (v : ViolationCtx) : Bool :=
  match v.details with
  | some d => d.involves_sensitive_info
  | none => false

/-! ## Concrete inputs used by the claims -/

/-- A tool whose only notable field is `approval_status = approved`. -/
def approvedTool : AITool :=
  { tool_name := "assistant", tool_vendor := none, tool_type := "llm",
    deployment_type := none, processes_personal_info := false,
    processes_sensitive_info := false, cross_border_disclosure := false,
    data_residency := none, privacy_act_compliant := none,
    approval_status := some "approved" }

/-- The same tool with `approval_status = banned`. -/
def bannedTool : AITool :=
  { approvedTool with approval_status := some "banned" }

/-- A tool with no deployment model set. -/
def missingDeployTool : AITool :=
  { tool_name := "helper", tool_vendor := none, tool_type := "chatbot",
    deployment_type := none, processes_personal_info := false,
    processes_sensitive_info := false, cross_border_disclosure := false,
    data_residency := none, privacy_act_compliant := none,
    approval_status := none }

/-- A tool with a deployment value outside the lookup table. -/
def edgeDeployTool : AITool :=
  { missingDeployTool with deployment_type := some "edge" }

/-- Boundary tool scoring exactly 75 (74.5 before rounding). -/
def boundaryTool75 : AITool :=
  { tool_name := "t75", tool_vendor := none, tool_type := "llm",
    deployment_type := some "on_premise", processes_personal_info := true,
    processes_sensitive_info := true, cross_border_disclosure := true,
    data_residency := none, privacy_act_compliant := none,
    approval_status := some "banned" }

/-- Boundary tool scoring exactly 74. -/
def boundaryTool74 : AITool :=
  { boundaryTool75 with approval_status := some "restricted" }

/-- Boundary tool scoring exactly 25. -/
def boundaryTool25 : AITool :=
  { tool_name := "t25", tool_vendor := none, tool_type := "llm",
    deployment_type := some "edge", processes_personal_info := false,
    processes_sensitive_info := false, cross_border_disclosure := false,
    data_residency := none, privacy_act_compliant := none,
    approval_status := some "conditional" }

/-- Boundary tool scoring exactly 24 (23.5 before rounding). -/
def boundaryTool24 : AITool :=
  { boundaryTool25 with
      tool_vendor := some "Unknown", privacy_act_compliant := some true }

/-- Rule bundle forbidding the `restricted` classification, with every other
rule off. -/
def restrictedForbiddenRules : PolicyRules :=
  { forbidden_data_types := some ["restricted"], allowed_data_types := none,
    block_personal_info := false, block_sensitive_info := false,
    require_approved_tools := false, block_cross_border := false,
    require_consent_for_personal_info := false, max_token_limit := none,
    require_approval_above_cost := none }

/-- Monitor-level policy forbidding `restricted` data. -/
def monitorPolicy : Policy :=
  { id := "p-mon", organization_id := "org-1", policy_name := "Monitor restricted",
    policy_type := "data_classification", rules := restrictedForbiddenRules,
    enforcement_level := "monitor", auto_remediation := false,
    applicable_roles := none, applicable_departments := none,
    applicable_tools := none, priority := 1 }

/-- Block-level policy forbidding `restricted` data. -/
def blockPolicy : Policy :=
  { monitorPolicy with
      id := "p-blk", policy_name := "Block restricted",
      enforcement_level := "block" }

/-- Usage of restricted-classified data through an approved tool. -/
def restrictedUsageData : UsageData :=
  { data_classification := "restricted", contains_personal_info := false,
    contains_sensitive_info := false, tool_approval_status := some "approved" }

/-- The same restricted usage in the policy-library shape. -/
def restrictedUsage : Usage :=
  { tool_id := "tool-1", tool_approval_status := some "approved",
    user_role := none, user_department := none,
    data_classification := "restricted", contains_personal_info := false,
    contains_sensitive_info := false, cross_border := none,
    token_count := none, estimated_cost := none }

/-- A remediation-complete violation row. -/
def remediatedViolation : ViolationRec :=
  { id := "v1", remediation_status := .remediated, remediated_by := none,
    remediated_at := none, remediation_notes := none, remediation_steps := none }

/-- A request moving a violation to `false_positive`. -/
def falsePositiveRequest : ViolationUpdate :=
  { violation_id := "v1", remediation_status := some .false_positive,
    remediation_notes := none, remediation_steps := none }

/-- A violation affecting exactly 100 subjects and meeting no other
reportability condition. -/
def subjects100Violation : ViolationCtx :=
  { severity := "warning", potential_privacy_breach := false,
    affected_data_subjects := some 100, details := none }

/-- The same violation affecting only 99 subjects. -/
def subjects99Violation : ViolationCtx :=
  { subjects100Violation with affected_data_subjects := some 99 }

/-- An organization snapshot with zero active policies. -/
def emptyPolicySnapshot : OrgSnapshot :=
  { activePolicies := some [], personalInfoUsage := none,
    personalInfoTools := none, crossBorderTools := none,
    recentBreaches := none, pendingReportable := none,
    org := none, activeTools := none }

/-- A validated usage-log body carrying a raw prompt. -/
def sampleUsageLog : ValidatedUsageLog :=
  { tool_id := "tool-1", session_id := none, request_id := none,
    data_classification := "internal", contains_personal_info := false,
    contains_sensitive_info := false, prompt_text := "prompt A",
    prompt_token_count := none, response_token_count := none,
    response_size_bytes := none, use_case_category := none,
    user_department := none, estimated_cost_usd := none }

/-! ## Claim theorems -/

/-- C1: the aggregate enforcement decision is the strictest level among the
violated policies — the usage route\'s `evaluatePolicies` blocks iff some
policy in the list is violated at block level, and the three-way aggregate of
the per-policy `evaluatePolicy` decisions is `block` when some applicable
violated policy is block-level, otherwise `warn` when some is alert-level,
otherwise `allow`; both aggregates are invariant under permutation of the
policy list (so a single violated block-level policy among any number of
monitor/alert policies always yields block). -/
theorem c1_policy_aggregation_strictness :
    (∀ ps u, (evaluatePolicies ps u).shouldBlock = true ↔
      ∃ p ∈ ps, usageViolates p u = true ∧ p.enforcement_level = "block") ∧
    (∀ ps qs u, ps.Perm qs →
      (evaluatePolicies ps u).shouldBlock = (evaluatePolicies qs u).shouldBlock) ∧
    (∀ ps usage,
      (aggregateDecision ps usage = .block ↔
        ∃ p ∈ ps, isPolicyApplicable p usage = true ∧ evaluatePolicyRules p usage ≠ [] ∧
          p.enforcement_level = "block") ∧
      (aggregateDecision ps usage = .warn ↔
        (¬ ∃ p ∈ ps, isPolicyApplicable p usage = true ∧ evaluatePolicyRules p usage ≠ [] ∧
          p.enforcement_level = "block") ∧
        ∃ p ∈ ps, isPolicyApplicable p usage = true ∧ evaluatePolicyRules p usage ≠ [] ∧
          p.enforcement_level = "alert") ∧
      (aggregateDecision ps usage = .allow ↔
        (¬ ∃ p ∈ ps, isPolicyApplicable p usage = true ∧ evaluatePolicyRules p usage ≠ [] ∧
          p.enforcement_level = "block") ∧
        ¬ ∃ p ∈ ps, isPolicyApplicable p usage = true ∧ evaluatePolicyRules p usage ≠ [] ∧
          p.enforcement_level = "alert")) ∧
    (∀ ps qs usage, ps.Perm qs →
      aggregateDecision ps usage = aggregateDecision qs usage) := by
  have hblockany : ∀ (ps : List Policy) (usage : Usage),
      (ps.any (fun p => (evaluatePolicy p usage).enforcement_action == Decision.block)) = true ↔
      ∃ p ∈ ps, isPolicyApplicable p usage = true ∧ evaluatePolicyRules p usage ≠ [] ∧
        p.enforcement_level = "block" := by
    intro ps usage
    rw [List.any_eq_true]
    constructor
    · rintro ⟨p, hp, hdec⟩
      exact ⟨p, hp, (evaluatePolicy_action_block_iff p usage).mp (by simpa using hdec)⟩
    · rintro ⟨p, hp, hchar⟩
      exact ⟨p, hp, by simpa using (evaluatePolicy_action_block_iff p usage).mpr hchar⟩
  have hwarnany : ∀ (ps : List Policy) (usage : Usage),
      (ps.any (fun p => (evaluatePolicy p usage).enforcement_action == Decision.warn)) = true ↔
      ∃ p ∈ ps, isPolicyApplicable p usage = true ∧ evaluatePolicyRules p usage ≠ [] ∧
        p.enforcement_level = "alert" := by
    intro ps usage
    rw [List.any_eq_true]
    constructor
    · rintro ⟨p, hp, hdec⟩
      exact ⟨p, hp, (evaluatePolicy_action_warn_iff p usage).mp (by simpa using hdec)⟩
    · rintro ⟨p, hp, hchar⟩
      exact ⟨p, hp, by simpa using (evaluatePolicy_action_warn_iff p usage).mpr hchar⟩
  refine ⟨fun ps u => ?_, fun ps qs u hperm => ?_, fun ps usage => ⟨?_, ?_, ?_⟩,
    fun ps qs usage hperm => ?_⟩
  · rw [evaluatePolicies_shouldBlock, List.any_eq_true]
    constructor
    · rintro ⟨p, hp, hx⟩
      simp only [Bool.and_eq_true, beq_iff_eq] at hx
      exact ⟨p, hp, hx.1, hx.2⟩
    · rintro ⟨p, hp, h1, h2⟩
      exact ⟨p, hp, by simp [h1, h2]⟩
  · rw [evaluatePolicies_shouldBlock, evaluatePolicies_shouldBlock]
    exact any_congr_perm hperm _
  · rw [aggregateDecision, ← hblockany ps usage]
    cases hb : ps.any (fun p => (evaluatePolicy p usage).enforcement_action == Decision.block) <;>
      cases hw : ps.any (fun p => (evaluatePolicy p usage).enforcement_action == Decision.warn) <;>
      simp
  · rw [aggregateDecision, ← hblockany ps usage, ← hwarnany ps usage]
    cases hb : ps.any (fun p => (evaluatePolicy p usage).enforcement_action == Decision.block) <;>
      cases hw : ps.any (fun p => (evaluatePolicy p usage).enforcement_action == Decision.warn) <;>
      simp [hb, hw]
  · rw [aggregateDecision, ← hblockany ps usage, ← hwarnany ps usage]
    cases hb : ps.any (fun p => (evaluatePolicy p usage).enforcement_action == Decision.block) <;>
      cases hw : ps.any (fun p => (evaluatePolicy p usage).enforcement_action == Decision.warn) <;>
      simp [hb, hw]
  · rw [aggregateDecision, aggregateDecision,
      any_congr_perm hperm
        (fun p => (evaluatePolicy p usage).enforcement_action == Decision.block),
      any_congr_perm hperm
        (fun p => (evaluatePolicy p usage).enforcement_action == Decision.warn)]

/-- C1 witness: with a monitor-level and a block-level policy both violated by
restricted usage, the route evaluator blocks, its decision is unchanged by
swapping the list, and the aggregated three-way decision of the policy
library is block. -/
theorem c1_policy_aggregation_strictness_witness :
    (evaluatePolicies [monitorPolicy, blockPolicy] restrictedUsageData).shouldBlock =
      (evaluatePolicies [blockPolicy, monitorPolicy] restrictedUsageData).shouldBlock ∧
    (evaluatePolicies [monitorPolicy, blockPolicy] restrictedUsageData).shouldBlock = true ∧
    aggregateDecision [monitorPolicy, blockPolicy] restrictedUsage = .block :=
  ⟨c1_policy_aggregation_strictness.2.1 [monitorPolicy, blockPolicy]
      [blockPolicy, monitorPolicy] restrictedUsageData
      (List.Perm.swap blockPolicy monitorPolicy []),
   (c1_policy_aggregation_strictness.1 [monitorPolicy, blockPolicy]
      restrictedUsageData).mpr
      ⟨blockPolicy, by decide, by decide, rfl⟩,
   ((c1_policy_aggregation_strictness.2.2.1 [monitorPolicy, blockPolicy]
      restrictedUsage).1).mpr
      ⟨blockPolicy, by decide, by decide, by decide, rfl⟩⟩

/-- C2: evaluation of the approval-status sub-score at the failing input: an
approved tool scores 70, not the 0 of the lookup table, because the looked-up
0 is falsy and the `|| 70` fallback fires; a banned tool scores 100 as the
table says. -/
theorem c2_approval_lookup_eval :
    calculateApprovalRisk approvedTool = 70 ∧
    calculateApprovalRisk approvedTool ≠ 0 ∧
    calculateApprovalRisk bannedTool = 100 := by
  refine ⟨by decide, by decide, by decide⟩

/-- C3 counterexample: the update handler accepts the terminal-to-terminal
change `remediated -> false_positive` that the lifecycle forbids. -/
theorem c3_lifecycle_counterexample :
    putUpdate "admin" "officer-1" "2025-06-01T00:00:00Z" remediatedViolation
        falsePositiveRequest =
      .ok { remediatedViolation with
              remediation_status := .false_positive,
              remediated_by := some "officer-1",
              remediated_at := some "2025-06-01T00:00:00Z" } ∧
    specLifecycleStep .remediated .false_positive = false := by
  refine ⟨by decide, by decide⟩

/-- C3 amended: the update handler validates only the caller\'s role, never the
lifecycle: an unauthorized role is rejected with 403 (and no update is
produced), an authorized role gets any requested status applied to any current
state with actor and timestamp stamped, and creation enters `acknowledged`
when auto-blocked and `pending` otherwise. -/
theorem c3_remediation_update_amended :
    (∀ role uid now v req, role ∉ (["owner", "admin", "compliance_officer"] : List String) →
      putUpdate role uid now v req = .error 403) ∧
    (∀ role uid now v req st,
      role ∈ (["owner", "admin", "compliance_officer"] : List String) →
      req.remediation_status = some st →
      (putUpdate role uid now v req).toOption.map ViolationRec.remediation_status =
        some st ∧
      (putUpdate role uid now v req).toOption.map ViolationRec.remediated_by =
        some (some uid) ∧
      (putUpdate role uid now v req).toOption.map ViolationRec.remediated_at =
        some (some now)) ∧
    (∀ orgId uid toolId logId ab fv,
      (createViolationRow orgId uid toolId logId ab fv).remediation_status =
        if ab then RemStatus.acknowledged else .pending) := by
  refine ⟨fun role uid now v req h => ?_, fun role uid now v req st h hst => ?_,
    fun orgId uid toolId logId ab fv => ?_⟩
  · simp [putUpdate, List.contains, List.elem_eq_mem, h]
  · simp only [List.mem_cons, List.mem_singleton, List.not_mem_nil, or_false] at h
    rcases req with ⟨vid, rst, rnotes, rsteps⟩
    simp only at hst
    subst hst
    rcases h with rfl | rfl | rfl <;>
      rcases rnotes with _ | n <;>
      rcases rsteps with _ | st2 <;>
      simp [putUpdate, Except.toOption, apply_ite] <;>
      by_cases hn : n = "" <;> simp [hn]
  · simp [createViolationRow]

/-- C3 witness: a viewer\'s update is rejected with 403, and an admin\'s
requested status is applied verbatim. -/
theorem c3_remediation_update_amended_witness :
    putUpdate "viewer" "officer-1" "2025-06-01T00:00:00Z" remediatedViolation
        falsePositiveRequest = .error 403 ∧
    (putUpdate "admin" "officer-1" "2025-06-01T00:00:00Z" remediatedViolation
        falsePositiveRequest).toOption.map ViolationRec.remediation_status =
      some RemStatus.false_positive :=
  ⟨c3_remediation_update_amended.1 "viewer" "officer-1" "2025-06-01T00:00:00Z"
      remediatedViolation falsePositiveRequest (by decide),
   (c3_remediation_update_amended.2.1 "admin" "officer-1" "2025-06-01T00:00:00Z"
      remediatedViolation falsePositiveRequest RemStatus.false_positive
      (by decide) rfl).1⟩

/-- C4 counterexample: a tool with no deployment model set scores 70 (the
`|| \'cloud\'` default), not the 80 the claim asserts. -/
theorem c4_missing_deployment_counterexample :
    calculateDeploymentRisk missingDeployTool = 70 ∧
    calculateDeploymentRisk missingDeployTool ≠ 80 := by
  refine ⟨by decide, by decide⟩

/-- C4 amended: a missing (or empty) deployment model defaults to `cloud` and
scores 70; only a deployment value outside the lookup table scores the
highest-risk 80; the table itself maps on-premise to 10, hybrid to 50 and
cloud to 70. -/
theorem c4_deployment_lookup_amended : ∀ t : AITool,
    (t.deployment_type = none → calculateDeploymentRisk t = 70) ∧
    (t.deployment_type = some "" → calculateDeploymentRisk t = 70) ∧
    (∀ s : String, t.deployment_type = some s →
      s ∉ (["on_premise", "hybrid", "cloud", ""] : List String) →
      calculateDeploymentRisk t = 80) ∧
    (t.deployment_type = some "on_premise" → calculateDeploymentRisk t = 10) ∧
    (t.deployment_type = some "hybrid" → calculateDeploymentRisk t = 50) ∧
    (t.deployment_type = some "cloud" → calculateDeploymentRisk t = 70) := by
  intro t
  refine ⟨fun h => ?_, fun h => ?_, fun s h hs => ?_, fun h => ?_, fun h => ?_,
    fun h => ?_⟩ <;>
    simp_all [calculateDeploymentRisk, jsOrStr, jsOrNat]

/-- C4 witness: the amended lookup evaluated at a missing and at an
unrecognized deployment value. -/
theorem c4_deployment_lookup_amended_witness :
    calculateDeploymentRisk missingDeployTool = 70 ∧
    calculateDeploymentRisk edgeDeployTool = 80 :=
  ⟨(c4_deployment_lookup_amended missingDeployTool).1 rfl,
   (c4_deployment_lookup_amended edgeDeployTool).2.2.1 "edge" rfl (by decide)⟩

/-- C5: a high-sensitivity identifier match (TFN, Medicare or payment card)
forces `containsSensitiveInfo`, `containsPersonalInfo` and the `restricted`
classification, personal-identifier matches alone give `internal`, and the
keyword list only ever raises `public` to `confidential`, never lowering a
classification set by identifier matches. -/
theorem c5_classifier_dominance :
    (∀ content : String, sensitivePatternHit content = true →
      (assessDataSensitivity content).contains_sensitive_info = true ∧
      (assessDataSensitivity content).contains_personal_info = true ∧
      (assessDataSensitivity content).classification = "restricted") ∧
    (∀ content : String,
      (assessDataSensitivity content).contains_sensitive_info =
        sensitivePatternHit content ∧
      (assessDataSensitivity content).contains_personal_info =
        (personalPatternHit content || sensitivePatternHit content ||
          keywordHit content) ∧
      (assessDataSensitivity content).classification =
        (if sensitivePatternHit content then "restricted"
         else if personalPatternHit content then "internal"
         else if keywordHit content then "confidential" else "public")) := by
  constructor
  · intro c hS
    cases hP : personalPatternHit c <;> cases hK : keywordHit c <;>
      simp [assessDataSensitivity, hS, hP, hK]
  · intro c
    cases hS : sensitivePatternHit c <;> cases hP : personalPatternHit c <;>
      cases hK : keywordHit c <;>
      simp [assessDataSensitivity, hS, hP, hK]

/-- C5 witness: a TFN-shaped input with no personal-identifier match is
classified restricted with both flags set. -/
theorem c5_classifier_dominance_witness :
    ((assessDataSensitivity "123 456 789").contains_sensitive_info = true ∧
      (assessDataSensitivity "123 456 789").contains_personal_info = true ∧
      (assessDataSensitivity "123 456 789").classification = "restricted") ∧
    personalPatternHit "123 456 789" = false :=
  ⟨c5_classifier_dominance.1 "123 456 789" (by decide), by decide⟩

/-- C6: a violation is reportable to the OAIC iff it is a critical potential
privacy breach, or affects at least 100 data subjects, or involves sensitive
information at high severity; exactly 100 affected subjects is reportable and
99 with no other qualifying condition is not. -/
theorem c6_reportability_iff :
    (∀ v : ViolationCtx, assessOAICReportability v = true ↔
      ((v.severity = "critical" ∧ v.potential_privacy_breach = true) ∨
        v.affected_data_subjects.getD 0 ≥ 100 ∨
        (involvesSensitiveInfo v = true ∧ v.severity = "high"))) ∧
    assessOAICReportability subjects100Violation = true ∧
    assessOAICReportability subjects99Violation = false := by
  refine ⟨fun v => ?_, by decide, by decide⟩
  rcases v with ⟨sev, ppb, ads, det⟩
  simp only [assessOAICReportability, involvesSensitiveInfo]
  split_ifs with hA hB hC
  · refine iff_of_true rfl ?_
    simp only [Bool.and_eq_true, beq_iff_eq] at hA
    exact Or.inl ⟨hA.1, hA.2⟩
  · refine iff_of_true rfl ?_
    refine Or.inr (Or.inl ?_)
    rcases ads with _ | n
    · simp at hB
    · simp only [Option.getD_some]
      simp only [Bool.and_eq_true, bne_iff_ne, decide_eq_true_eq] at hB
      exact hB.2
  · refine iff_of_true rfl ?_
    refine Or.inr (Or.inr ?_)
    simp only [Bool.and_eq_true, beq_iff_eq] at hC
    exact ⟨hC.1, hC.2⟩
  · refine iff_of_false (by simp) ?_
    intro hcon
    rcases hcon with ⟨h1, h2⟩ | h | ⟨h1, h2⟩
    · exact hA (by simp [h1, h2])
    · rcases ads with _ | n
      · simp at h
      · simp only [Option.getD_some] at h
        exact hB (by simp [h]; omega)
    · exact hC (by simp [h1, h2])

/-- C7: the risk tier always equals the inclusive-lower-bound bucketing of the
rounded overall score, and boundary tools scoring exactly 75, 74, 25 and 24
land in critical, high, medium and low respectively. -/
theorem c7_tier_thresholds :
    (∀ t : AITool,
      (calculateToolRisk t).risk_level = specTier (calculateToolRisk t).overall_risk) ∧
    ((calculateToolRisk boundaryTool75).overall_risk = 75 ∧
      (calculateToolRisk boundaryTool75).risk_level = .critical) ∧
    ((calculateToolRisk boundaryTool74).overall_risk = 74 ∧
      (calculateToolRisk boundaryTool74).risk_level = .high) ∧
    ((calculateToolRisk boundaryTool25).overall_risk = 25 ∧
      (calculateToolRisk boundaryTool25).risk_level = .medium) ∧
    ((calculateToolRisk boundaryTool24).overall_risk = 24 ∧
      (calculateToolRisk boundaryTool24).risk_level = .low) := by
  have hspec : ∀ t : AITool,
      (calculateToolRisk t).risk_level = specTier (calculateToolRisk t).overall_risk :=
    fun t => rfl
  have hov75 : (calculateToolRisk boundaryTool75).overall_risk = 75 := by
    have h1 : calculateDataSensitivityRisk boundaryTool75 = 100 := by decide
    have h2 : calculateDeploymentRisk boundaryTool75 = 10 := by decide
    have h3 : calculateCrossBorderRisk boundaryTool75 = 100 := by decide
    have h4 : calculateComplianceRisk boundaryTool75 = 50 := by decide
    have h5 : calculateApprovalRisk boundaryTool75 = 100 := by decide
    rw [calculateToolRisk_overall, h1, h2, h3, h4, h5]
    norm_num [jsRound]
  have hov74 : (calculateToolRisk boundaryTool74).overall_risk = 74 := by
    have h1 : calculateDataSensitivityRisk boundaryTool74 = 100 := by decide
    have h2 : calculateDeploymentRisk boundaryTool74 = 10 := by decide
    have h3 : calculateCrossBorderRisk boundaryTool74 = 100 := by decide
    have h4 : calculateComplianceRisk boundaryTool74 = 50 := by decide
    have h5 : calculateApprovalRisk boundaryTool74 = 90 := by decide
    rw [calculateToolRisk_overall, h1, h2, h3, h4, h5]
    norm_num [jsRound]
  have hov25 : (calculateToolRisk boundaryTool25).overall_risk = 25 := by
    have h1 : calculateDataSensitivityRisk boundaryTool25 = 0 := by decide
    have h2 : calculateDeploymentRisk boundaryTool25 = 80 := by decide
    have h3 : calculateCrossBorderRisk boundaryTool25 = 0 := by decide
    have h4 : calculateComplianceRisk boundaryTool25 = 50 := by decide
    have h5 : calculateApprovalRisk boundaryTool25 = 30 := by decide
    rw [calculateToolRisk_overall, h1, h2, h3, h4, h5]
    norm_num [jsRound]
  have hov24 : (calculateToolRisk boundaryTool24).overall_risk = 24 := by
    have h1 : calculateDataSensitivityRisk boundaryTool24 = 0 := by decide
    have h2 : calculateDeploymentRisk boundaryTool24 = 80 := by decide
    have h3 : calculateCrossBorderRisk boundaryTool24 = 0 := by decide
    have h4 : calculateComplianceRisk boundaryTool24 = 40 := by decide
    have h5 : calculateApprovalRisk boundaryTool24 = 30 := by decide
    rw [calculateToolRisk_overall, h1, h2, h3, h4, h5]
    norm_num [jsRound]
  refine ⟨hspec, ⟨hov75, ?_⟩, ⟨hov74, ?_⟩, ⟨hov25, ?_⟩, ⟨hov24, ?_⟩⟩ <;>
    rw [hspec] <;> simp only [hov75, hov74, hov25, hov24] <;> decide

/-- C8: toggling `processesSensitiveInfo` from false to true with all other
fields fixed never lowers the overall risk score. -/
theorem c8_sensitive_toggle_monotone : ∀ t : AITool,
    (calculateToolRisk { t with processes_sensitive_info := false }).overall_risk ≤
      (calculateToolRisk { t with processes_sensitive_info := true }).overall_risk := by
  intro t
  rw [calculateToolRisk_overall, calculateToolRisk_overall]
  have hds : calculateDataSensitivityRisk { t with processes_sensitive_info := false } ≤
      calculateDataSensitivityRisk { t with processes_sensitive_info := true } := by
    cases hpi : t.processes_personal_info <;>
      simp [calculateDataSensitivityRisk, hpi]
  have hcb : calculateCrossBorderRisk { t with processes_sensitive_info := false } ≤
      calculateCrossBorderRisk { t with processes_sensitive_info := true } := by
    cases hx : t.cross_border_disclosure <;>
      simp [calculateCrossBorderRisk, hx]
  have hdep : calculateDeploymentRisk { t with processes_sensitive_info := false } =
      calculateDeploymentRisk { t with processes_sensitive_info := true } := rfl
  have hcomp : calculateComplianceRisk { t with processes_sensitive_info := false } =
      calculateComplianceRisk { t with processes_sensitive_info := true } := rfl
  have happr : calculateApprovalRisk { t with processes_sensitive_info := false } =
      calculateApprovalRisk { t with processes_sensitive_info := true } := rfl
  apply jsRound_mono
  rw [hdep, hcomp, happr]
  have h1 : (calculateDataSensitivityRisk { t with processes_sensitive_info := false } :
      ℚ) ≤ (calculateDataSensitivityRisk { t with processes_sensitive_info := true } :
      ℚ) := by exact_mod_cast hds
  have h2 : (calculateCrossBorderRisk { t with processes_sensitive_info := false } :
      ℚ) ≤ (calculateCrossBorderRisk { t with processes_sensitive_info := true } :
      ℚ) := by exact_mod_cast hcb
  have w1 : (0.35 : ℚ) ≥ 0 := by norm_num
  have w3 : (0.25 : ℚ) ≥ 0 := by norm_num
  nlinarith [mul_le_mul_of_nonneg_right h1 w1, mul_le_mul_of_nonneg_right h2 w3]

/-- C9: the compliance score is the rounded percentage of compliant findings
with an explicit zero when there are no checks, and a snapshot with zero
active policies fails the active-policy-exists requirement and scores strictly
below 100. -/
theorem c9_assessment_score :
    (∀ code name s, (runComplianceAssessment code name s).compliance_score =
      (if (runComplianceAssessment code name s).findings.length = 0 then 0
       else jsRound (100 *
         (((runComplianceAssessment code name s).findings.filter
             (fun f => f.compliant)).length : ℚ) /
           ((runComplianceAssessment code name s).findings.length : ℚ)))) ∧
    (∀ name s, s.activePolicies = some ([] : List Policy) →
      ((runComplianceAssessment "au_privacy_act" name s).findings.head?.map
          (fun f => f.compliant)) = some false ∧
      (runComplianceAssessment "au_privacy_act" name s).compliance_score < 100) := by
  constructor
  · intro code name s
    simp only [runComplianceAssessment]
    set fs := (if code = "au_privacy_act" then assessPrivacyAct s
      else if code = "au_consumer_law" then assessConsumerLaw s else []) with hfs
    rcases Nat.eq_zero_or_pos fs.length with h | h
    · simp [h]
    · rw [if_pos h, if_neg (Nat.pos_iff_ne_zero.mp h)]
      congr 1
      ring
  · intro name s h
    have hcons : ∃ f rest, assessPrivacyAct s = f :: rest ∧ f.compliant = false ∧
        rest.length = 5 := by
      refine ⟨_, _, rfl, ?_, rfl⟩
      simp [assessPrivacyAct, h]
    obtain ⟨f, rest, heq, hfc, hrl⟩ := hcons
    constructor
    · simp only [runComplianceAssessment]
      simp [heq, hfc]
    · have hscore : (runComplianceAssessment "au_privacy_act" name s).compliance_score =
          jsRound ((((f :: rest).filter (fun x => x.compliant)).length : ℚ) / 6 * 100) := by
        simp only [runComplianceAssessment]
        simp [heq, hrl]
      rw [hscore]
      have hpassed : ((f :: rest).filter (fun x => x.compliant)).length ≤ 5 := by
        rw [List.filter_cons_of_neg (by simp [hfc])]
        calc (rest.filter (fun x => x.compliant)).length ≤ rest.length :=
              List.length_filter_le _ _
          _ = 5 := hrl
      have hq : ((((f :: rest).filter (fun x => x.compliant)).length : ℚ)) ≤ 5 := by
        exact_mod_cast hpassed
      have hlt : ((((f :: rest).filter (fun x => x.compliant)).length : ℚ) / 6 * 100) + 1/2
          < ((100 : ℤ) : ℚ) := by push_cast; linarith
      unfold jsRound
      exact Int.floor_lt.mpr hlt

/-- C9 witness: the zero-policy snapshot fails the first Privacy Act finding
and scores below 100. -/
theorem c9_assessment_score_witness :
    ((runComplianceAssessment "au_privacy_act" "Privacy Act 1988"
        emptyPolicySnapshot).findings.head?.map (fun f => f.compliant)) = some false ∧
    (runComplianceAssessment "au_privacy_act" "Privacy Act 1988"
        emptyPolicySnapshot).compliance_score < 100 :=
  c9_assessment_score.2 "Privacy Act 1988" emptyPolicySnapshot rfl

/-- C10: the stored usage-log row depends on the prompt only through its
one-way digest: two request bodies differing only in prompt text whose
digests agree produce identical rows (the row type itself has no prompt-text
member). -/
theorem c10_prompt_only_through_digest :
    ∀ (sha256hex : String → String) (orgId userId : String)
      (toolApprovalStatus : Option String) (v : ValidatedUsageLog) (p2 : String)
      (policies : Option (List Policy)) (ip userAgent : Option String),
      sha256hex v.prompt_text = sha256hex p2 →
      buildUsageLogRow sha256hex orgId userId toolApprovalStatus v policies ip userAgent =
        buildUsageLogRow sha256hex orgId userId toolApprovalStatus
          { v with prompt_text := p2 } policies ip userAgent := by
  intro sha256hex orgId userId st v p2 policies ip ua hEq
  simp [buildUsageLogRow, hEq]

/-- C10 witness: under a digest function on which two distinct prompts
collide, the two stored rows are identical. -/
theorem c10_prompt_only_through_digest_witness :
    buildUsageLogRow (fun _ => "digest") "org-1" "user-1" none sampleUsageLog
        none none none =
      buildUsageLogRow (fun _ => "digest") "org-1" "user-1" none
        { sampleUsageLog with prompt_text := "prompt B" } none none none :=
  c10_prompt_only_through_digest (fun _ => "digest") "org-1" "user-1" none
    sampleUsageLog "prompt B" none none none rfl

end Compli
